import Mathlib

/-!
Verification of the RecruitFlow candidate ingestion & deduplication pipeline.

Shallow embedding of the Python sources:
  - `main/services/doc_reader_service.py` (DocumentReader)
  - `main/services/mail_service.py`       (MailService.get_last_messages)
  - `main/services/llm_service.py`        (GeminiService)
  - `main/repository/candidate.py`        (CandidateOperations)
  - `main/tasks.py`                       (check_email_task / create_candidates)

External effects (the Gemini API, the IMAP mailbox, the pdf/docx parsing
libraries) are modelled as oracle parameters: each oracle value describes the
outcome of the corresponding external call, and the embedded functions
reproduce exactly what the Python code does with that outcome.
-/

namespace RecruitFlow

/-! ## Python string primitives

The Python `str` methods used by the sources, embedded over the code-point
list `String.data` (Python strings are sequences of code points). -/

/-- Python `s.lower()` (ASCII case folding, which is all the sources rely on). -/
def pyLower (s : String) : String := String.mk (s.data.map Char.toLower)

/-- Python `s.endswith(suffix)`. -/
def pyEndsWith (s suffix : String) : Bool := suffix.data.isSuffixOf s.data

/-- Python `s[:n]` slicing: the first `n` code points of `s`. -/
def pyTake (s : String) (n : Nat) : String := String.mk (s.data.take n)

/-- Python `s.strip()`: drop leading and trailing whitespace. -/
def pyStrip (s : String) : String :=
  String.mk (((s.data.dropWhile Char.isWhitespace).reverse.dropWhile Char.isWhitespace).reverse)

/-- Python `s.replace(old, new)` for a one-character pattern `old`
(the sources only ever replace the single character `'\n'`). -/
def pyReplaceChar (old : Char) (new : String) (s : String) : String :=
  String.mk ((s.data.map (fun c => if c == old then new.data else [c])).flatten)

/-- Python `a or b` on strings: `a` when it is truthy (non-empty), else `b`. -/
def pyOrStr (a b : String) : String := if a = "" then b else a

/-! ## LLM answer schemas (`main/schemas/llm_answers_schemas.py`)

`Literal["0", "1"]` fields become the two-value type `BinLit`. -/

/-- The pydantic `Literal["0", "1"]` type used by the binary-flag schemas. -/
inductive BinLit where
  | s0
  | s1
deriving DecidableEq, BEq, Repr

/-- Schema `IsResumeSchema`: the classification answer. -/
structure IsResumeSchema where
  is_resume : BinLit
deriving DecidableEq, Repr

/-- Schema `CandidateInfoFromResume`: the structured extraction answer.
Optional pydantic fields (`email`, `phone`, `telegram`) become `Option String`
(`none` = JSON `null`). -/
structure CandidateInfoFromResume where
  full_name : String
  programming_languages : String
  work_experience : String
  technologies : String
  education : String
  soft_skills : String
  spoken_languages : String
  email : Option String
  phone : Option String
  telegram : Option String
deriving DecidableEq, Repr

/-- Schema `IsRelevantCandidate`: the relevance answer. -/
structure IsRelevantCandidate where
  is_relevant : BinLit
deriving DecidableEq, Repr

/-- Outcome of one `client.models.generate_content` call, as the Python code
observes it: a parsed schema object (`response.parsed` truthy), an empty
parsed answer, or a raised exception (API error / pydantic ValidationError). -/
inductive LLMResult (α : Type) where
  | ok (value : α)
  | emptyParsed
  | failed
deriving DecidableEq, Repr

/-! ## GeminiService (`main/services/llm_service.py`) -/

/-- `GeminiService.is_resume` (lines 83-149): `response.parsed.is_resume == "1"`
on success; `False` on an empty parsed answer or any exception. -/
def is_resume (call : LLMResult IsResumeSchema) : Bool :=
  match call with
  | .ok r => r.is_resume == BinLit.s1
  | .emptyParsed => false
  | .failed => false

/-- `GeminiService.get_candidate_info_from_resume` (lines 151-225): returns
`result.model_dump()` on success, and the empty dict `{}` on an empty parsed
answer or any exception.  The returned Python dict is modelled as
`Option CandidateInfoFromResume`: `none` is the empty dict, `some r` is the
full dict produced by `model_dump()` (all ten keys present). -/
def get_candidate_info_from_resume (call : LLMResult CandidateInfoFromResume) :
    Option CandidateInfoFromResume :=
  match call with
  | .ok r => some r
  | .emptyParsed => none
  | .failed => none

/-- Result of one `is_candidate_relevant_for_position` call: the returned
boolean, plus whether the Gemini model was actually invoked (the short-circuit
on empty requirements returns before `generate_content` is reached). -/
structure RelevanceCall where
  result : Bool
  invoked : Bool
deriving DecidableEq, Repr

/-- `GeminiService.is_candidate_relevant_for_position` (lines 227-298):
`if not position_requirements or not position_requirements.strip(): return True`
without calling the model; otherwise `response.parsed.is_relevant == "1"` on
success and `False` on an empty parsed answer or any exception. -/
def is_candidate_relevant_for_position (call : LLMResult IsRelevantCandidate)
    (candidate_info position_requirements : String) : RelevanceCall :=
  if position_requirements = "" ∨ pyStrip position_requirements = "" then
    { result := true, invoked := false }
  else
    match call with
    | .ok r => { result := r.is_relevant == BinLit.s1, invoked := true }
    | .emptyParsed => { result := false, invoked := true }
    | .failed => { result := false, invoked := true }

/-! ## DocumentReader (`main/services/doc_reader_service.py`) -/

/-- Raw file bytes (opaque to the core logic; only passed to the parsers). -/
abbrev Bytes := List Nat

/-- Outcome of running `PdfReader` over a payload: `pages` holds the
`page.extract_text()` results obtained before any exception (`none` = the page
returned `None`, e.g. image-only); `failed` records whether an exception was
raised (at construction, when `pages = []`, or after the listed pages).  The
`try` block accumulates `text` page by page, so the pages extracted before a
failure are kept. -/
structure PdfOutcome where
  pages : List (Option String)
  failed : Bool
deriving DecidableEq, Repr

/-- Outcome of running `docx.Document` over a payload: the paragraph texts, or
a raised exception. -/
inductive DocxOutcome where
  | ok (paras : List String)
  | failed
deriving DecidableEq, Repr

/-- `DocumentReader._read_pdf_from_bytes` (lines 62-97): concatenate
`page_text + "\n"` for every truthy `page.extract_text()`; exceptions are
caught and the text accumulated so far is returned. -/
def read_pdf_from_bytes (o : PdfOutcome) : String :=
  o.pages.foldl
    (fun text page_text =>
      match page_text with
      | some t => if t = "" then text else text ++ t ++ "\n"
      | none => text)
    ""

/-- `DocumentReader._read_docx_from_bytes` (lines 99-132):
`"\n".join([para.text.strip() for para in doc.paragraphs if para.text])`;
exceptions are caught and `""` is returned. -/
def read_docx_from_bytes (o : DocxOutcome) : String :=
  match o with
  | .ok paras => String.intercalate "\n" ((paras.filter (fun p => p ≠ "")).map pyStrip)
  | .failed => ""

/-- `DocumentReader.read_document` (lines 28-60): lowercase the filename, then
dispatch on the extension; supported formats are prefixed with the
`"Название документа: ..."` header line; anything else yields `""`.
The parser outcomes are supplied by the per-payload oracles. -/
def read_document (pdfO : Bytes → PdfOutcome) (docxO : Bytes → DocxOutcome)
    (filename : String) (payload : Bytes) : String :=
  let filename := pyLower filename
  if pyEndsWith filename ".pdf" then
    "Название документа: " ++ filename ++ "\n" ++ read_pdf_from_bytes (pdfO payload)
  else if pyEndsWith filename ".docx" then
    "Название документа: " ++ filename ++ "\n" ++ read_docx_from_bytes (docxO payload)
  else ""

/-! ## MailService (`main/services/mail_service.py`) -/

/-- One attachment of a fetched IMAP message. -/
structure Attachment where
  filename : String
  payload : Bytes
deriving DecidableEq, Repr

/-- One message as yielded by `mailbox.fetch` (imap_tools attributes used by
the code; `text` and `html` are `""` when absent, matching imap_tools). -/
structure RawMessage where
  from_ : String
  date : String
  subject : String
  text : String
  html : String
  attachments : List Attachment
deriving DecidableEq, Repr

/-- The normalized message dict built by `get_last_messages` (keys `from`,
`date`, `subject`, `text`, `file_content`, `file_name`, `file_payload`). -/
structure Message where
  from_ : String
  date : String
  subject : String
  text : String
  file_content : String
  file_name : Option String
  file_payload : Option Bytes
deriving DecidableEq, Repr

/-- The attachment loop of `get_last_messages` (lines 68-78): iterate the
attachments in order; on the first one whose extracted text is truthy, record
text, filename and payload and `break`. -/
def scanAttachments (rd : String → Bytes → String) :
    List Attachment → String × Option String × Option Bytes
  | [] => ("", none, none)
  | att :: rest =>
    let extracted_text := rd att.filename att.payload
    if extracted_text ≠ "" then (extracted_text, some att.filename, some att.payload)
    else scanAttachments rd rest

/-- The body of the fetch loop of `get_last_messages` (lines 60-89): build the
message dict, with `full_text = message.text or message.html or ""` and the
attachment fields from `scanAttachments`. -/
def normalizeMessage (rd : String → Bytes → String) (raw : RawMessage) : Message :=
  let scanned := scanAttachments rd raw.attachments
  { from_ := raw.from_
    date := raw.date
    subject := raw.subject
    text := pyOrStr raw.text (pyOrStr raw.html "")
    file_content := scanned.1
    file_name := scanned.2.1
    file_payload := scanned.2.2 }

/-- Outcome of the IMAP session for one user: the login itself fails, or the
fetch yields `raws` and then either completes or raises a protocol error
(`errorAfter = true`).  Either way the surrounding `try` catches the exception
and the messages processed so far are returned. -/
inductive MailboxOutcome where
  | loginFailed
  | fetched (raws : List RawMessage) (errorAfter : Bool)

/-- `MailService.get_last_messages` (lines 27-93): `processed_messages` holds
the dicts built before any failure; all exceptions are caught and logged, and
the accumulated list is returned. -/
def get_last_messages (outcome : MailboxOutcome) (rd : String → Bytes → String) :
    List Message :=
  match outcome with
  | .loginFailed => []
  | .fetched raws _errorAfter => raws.map (normalizeMessage rd)

/-! ## CandidateOperations (`main/repository/candidate.py`) -/

/-- A `Position` row: its primary key and its `requirements` text. -/
structure Position where
  id : Nat
  requirements : String
deriving DecidableEq, Repr

/-- The field set passed to `Candidate.objects.create`.  Columns that the code
may feed `None` (`gmail`, `telegram`, `phone_number`) are `Option String` so
that stored nulls are observable. -/
structure CandidateRow where
  position : Nat
  full_name : String
  experience : String
  programming_language : String
  used_technologies : String
  education : String
  soft_skills : String
  languages : String
  gmail : Option String
  telegram : Option String
  phone_number : Option String
  status : String
deriving DecidableEq, Repr

/-- Python `candidate_info.get(key, default)` for a required string field:
the empty dict yields the default, the full dict yields the field. -/
def dictGetS (ci : Option CandidateInfoFromResume)
    (field : CandidateInfoFromResume → String) (dflt : String) : String :=
  match ci with
  | none => dflt
  | some c => field c

/-- Python `candidate_info.get(key)` for an optional field: the empty dict
yields `None`; the full dict yields the value, which may itself be `None`. -/
def dictGetO (ci : Option CandidateInfoFromResume)
    (field : CandidateInfoFromResume → Option String) : Option String :=
  match ci with
  | none => none
  | some c => field c

/-- Python `f"{v}"` for an optional string: `None` prints as `"None"`. -/
def pyShowOpt : Option String → String
  | none => "None"
  | some s => s

/-- `"\n".join([f"{k}: {v}" for k, v in candidate_info.items()])`
(candidate.py line 58).  The empty dict joins to `""`; the full dict iterates
its keys in pydantic field order. -/
def candidate_info_str : Option CandidateInfoFromResume → String
  | none => ""
  | some c => String.intercalate "\n"
      ["full_name: " ++ c.full_name,
       "programming_languages: " ++ c.programming_languages,
       "work_experience: " ++ c.work_experience,
       "technologies: " ++ c.technologies,
       "education: " ++ c.education,
       "soft_skills: " ++ c.soft_skills,
       "spoken_languages: " ++ c.spoken_languages,
       "email: " ++ pyShowOpt c.email,
       "phone: " ++ pyShowOpt c.phone,
       "telegram: " ++ pyShowOpt c.telegram]

/-- The `Candidate.objects.create(...)` call of `create_candidate_from_email`
(candidate.py lines 65-81), including the newline-to-comma joins and the
`[:100]` / `[:255]` truncations computed just before it. -/
def buildCandidateRow (ci : Option CandidateInfoFromResume) (position : Position) :
    CandidateRow :=
  { position := position.id
    full_name := dictGetS ci (fun c => c.full_name) "Без имени"
    experience := dictGetS ci (fun c => c.work_experience) ""
    programming_language :=
      pyTake (pyReplaceChar '\n' ", " (dictGetS ci (fun c => c.programming_languages) "")) 100
    used_technologies := dictGetS ci (fun c => c.technologies) ""
    education := dictGetS ci (fun c => c.education) ""
    soft_skills := dictGetS ci (fun c => c.soft_skills) ""
    languages :=
      pyTake (pyReplaceChar '\n' ", " (dictGetS ci (fun c => c.spoken_languages) "")) 255
    gmail := dictGetO ci (fun c => c.email)
    telegram :=
      match ci with
      | none => some ""
      | some c => c.telegram
    phone_number := dictGetO ci (fun c => c.phone)
    status := "new" }

/-- The position loop of `create_candidate_from_email` (lines 62-96): walk the
positions in order, calling `is_candidate_relevant_for_position` on each, and
`break` at the first relevant one.  Returns the positions on which the
relevance call was made (in order) and the matched position, if any. -/
def matchPositions (relO : Position → LLMResult IsRelevantCandidate)
    (info_str : String) : List Position → List Position × Option Position
  | [] => ([], none)
  | position :: rest =>
    if (is_candidate_relevant_for_position (relO position) info_str position.requirements).result
    then ([position], some position)
    else
      let r := matchPositions relO info_str rest
      (position :: r.1, r.2)

/-- Result of one `create_candidate_from_email` call: the positions scored (in
order) and the created row, if any. -/
structure EmailIngestResult where
  examined : List Position
  created : Option CandidateRow
deriving DecidableEq, Repr

/-- `CandidateOperations.create_candidate_from_email` (lines 26-96): extract
the candidate info, build the `key: value` summary, walk the user's positions
and create one `Candidate` row for the first relevant position.  The row is
created with `telegram = candidate_info.get('telegram', '')` — no null
fallback.  (The resume-file save that follows row creation has no effect on
the row fields and is not modelled.) -/
def create_candidate_from_email (extractCall : LLMResult CandidateInfoFromResume)
    (relO : Position → LLMResult IsRelevantCandidate)
    (positions : List Position) (_message : Message) : EmailIngestResult :=
  let candidate_info := get_candidate_info_from_resume extractCall
  let info_str := candidate_info_str candidate_info
  let r := matchPositions relO info_str positions
  { examined := r.1, created := r.2.map (buildCandidateRow candidate_info) }

/-- `CandidateOperations.create_candidate_from_single_document` (lines 98-155):
always creates one row for the given position; here
`telegram = candidate_info.get('telegram', '') or ""`. -/
def create_candidate_from_single_document (extractCall : LLMResult CandidateInfoFromResume)
    (position : Position) : CandidateRow :=
  let candidate_info := get_candidate_info_from_resume extractCall
  { buildCandidateRow candidate_info position with
    telegram := some
      (match candidate_info with
       | none => ""
       | some c => (c.telegram).getD "") }

/-! ## Periodic task (`main/tasks.py`) -/

/-- `message_id = f"{message['from']}_{str(message['date'])}"` (line 61). -/
def message_id (m : Message) : String := m.from_ ++ "_" ++ m.date

/-- `redis_service.sismember("processed_emails", k)`: set membership. -/
def sismember (ledger : List String) (k : String) : Bool := ledger.contains k

/-- `redis_service.sadd("processed_emails", k)`: set insertion. -/
def sadd (ledger : List String) (k : String) : List String :=
  if ledger.contains k then ledger else ledger ++ [k]

/-- State of the mail-checking loop: the Redis `processed_emails` set and the
messages accepted as resumes for the current user. -/
structure ScanState where
  ledger : List String
  accepted : List Message
deriving DecidableEq, Repr

/-- The per-message body of `check_email_task` (lines 59-73): skip if the
ledger already has the key; otherwise add the key first, then classify, and
accept the message when the classifier answers true. -/
def processMessage (classify : Message → LLMResult IsResumeSchema)
    (s : ScanState) (message : Message) : ScanState :=
  let mid := message_id message
  if sismember s.ledger mid then s
  else
    let ledger := sadd s.ledger mid
    if is_resume (classify message) then
      { ledger := ledger, accepted := s.accepted ++ [message] }
    else
      { ledger := ledger, accepted := s.accepted }

/-- The message loop of `check_email_task` for one user. -/
def scanUserMessages (classify : Message → LLMResult IsResumeSchema)
    (s : ScanState) : List Message → ScanState
  | [] => s
  | m :: rest => scanUserMessages classify (processMessage classify s m) rest

/-- Everything the task needs for one user: the mailbox outcome, the parser
oracles used when normalizing attachments, the three LLM oracles, and the
user's positions (`Position.objects.filter(project__users__id=user_id)
.distinct()`, in database iteration order). -/
structure UserEnv where
  outcome : MailboxOutcome
  pdfO : Bytes → PdfOutcome
  docxO : Bytes → DocxOutcome
  classify : Message → LLMResult IsResumeSchema
  extractO : Message → LLMResult CandidateInfoFromResume
  relO : Message → Position → LLMResult IsRelevantCandidate
  positions : List Position

/-- The messages `get_last_messages` returns for one user. -/
def userMessages (u : UserEnv) : List Message :=
  get_last_messages u.outcome (read_document u.pdfO u.docxO)

/-- `create_candidates` (tasks.py lines 85-102): for every user, for every
accepted message, run `create_candidate_from_email`; collect the created
rows. -/
def create_candidates : List (UserEnv × List Message) → List CandidateRow
  | [] => []
  | (u, msgs) :: rest =>
    msgs.foldl
      (fun rows m =>
        rows ++ ((create_candidate_from_email (u.extractO m) (u.relO m) u.positions m).created).toList)
      [] ++ create_candidates rest

/-- The user loop of `check_email_task` (lines 54-76): thread the ledger
through the users, collecting each user's accepted messages.  A user whose
mail fetch failed contributes an empty message list (`get_last_messages`
swallows the error), and the per-user `try` keeps the loop going. -/
def scanUsers : List UserEnv → List String → List String × List (UserEnv × List Message)
  | [], ledger => (ledger, [])
  | u :: rest, ledger =>
    let s := scanUserMessages u.classify { ledger := ledger, accepted := [] } (userMessages u)
    let r := scanUsers rest s.ledger
    (r.1, (u, s.accepted) :: r.2)

/-- Durable state the task reads and writes: the Redis set and the Candidate
table. -/
structure PipelineState where
  ledger : List String
  candidates : List CandidateRow
deriving DecidableEq, Repr

/-- `check_email_task` (lines 25-82): scan every configured user's mailbox,
gate each message through the ledger, classify, then create candidates from
all accepted messages. -/
def check_email_task (users : List UserEnv) (st : PipelineState) : PipelineState :=
  let scanned := scanUsers users st.ledger
  { ledger := scanned.1, candidates := st.candidates ++ create_candidates scanned.2 }

/-! ## Helper lemmas -/

/-- Python slicing `s[:n]` yields at most `n` characters. -/
lemma pyTake_length_le (s : String) (n : Nat) : (pyTake s n).length ≤ n := by
  show (s.data.take n).length ≤ n
  simp [List.length_take]

/-- String append with `""` on the right is the identity. -/
lemma string_append_empty (s : String) : s ++ "" = s := by
  cases s with
  | mk data => show String.mk (data ++ []) = String.mk data; rw [List.append_nil]

/-- The attachment loop returns the first attachment that yields text,
ignoring everything after it. -/
lemma scanAttachments_first (rd : String → Bytes → String)
    (pre : List Attachment) (att : Attachment) (post : List Attachment)
    (h1 : ∀ b ∈ pre, rd b.filename b.payload = "")
    (h2 : rd att.filename att.payload ≠ "") :
    scanAttachments rd (pre ++ att :: post) =
      (rd att.filename att.payload, some att.filename, some att.payload) := by
  induction pre with
  | nil => simp [scanAttachments, h2]
  | cons b rest ih =>
    have hb : rd b.filename b.payload = "" := h1 b (by simp)
    simp only [List.cons_append, scanAttachments, hb]
    simpa using ih (fun x hx => h1 x (by simp [hx]))

/-- The attachment loop returns unset fields when no attachment yields text. -/
lemma scanAttachments_none (rd : String → Bytes → String) (atts : List Attachment)
    (h : ∀ b ∈ atts, rd b.filename b.payload = "") :
    scanAttachments rd atts = ("", none, none) := by
  induction atts with
  | nil => rfl
  | cons b rest ih =>
    have hb : rd b.filename b.payload = "" := h b (by simp)
    simp only [scanAttachments, hb]
    simpa using ih (fun x hx => h x (by simp [hx]))

/-- The position loop stops at the first relevant position. -/
lemma matchPositions_first (relO : Position → LLMResult IsRelevantCandidate)
    (info_str : String) (pre : List Position) (p : Position) (post : List Position)
    (h1 : ∀ q ∈ pre,
      (is_candidate_relevant_for_position (relO q) info_str q.requirements).result = false)
    (h2 : (is_candidate_relevant_for_position (relO p) info_str p.requirements).result = true) :
    matchPositions relO info_str (pre ++ p :: post) = (pre ++ [p], some p) := by
  induction pre with
  | nil => simp [matchPositions, h2]
  | cons q rest ih =>
    have hq := h1 q (by simp)
    simp only [List.cons_append, matchPositions, hq]
    simp [ih (fun x hx => h1 x (by simp [hx]))]

/-- The position loop matches nothing when no position is relevant. -/
lemma matchPositions_none (relO : Position → LLMResult IsRelevantCandidate)
    (info_str : String) (positions : List Position)
    (h : ∀ q ∈ positions,
      (is_candidate_relevant_for_position (relO q) info_str q.requirements).result = false) :
    matchPositions relO info_str positions = (positions, none) := by
  induction positions with
  | nil => rfl
  | cons q rest ih =>
    have hq := h q (by simp)
    simp only [matchPositions, hq]
    simp [ih (fun x hx => h x (by simp [hx]))]

/-- A created row always comes out of `buildCandidateRow` applied to the
extraction result and the matched position. -/
lemma created_eq_buildCandidateRow (extractCall : LLMResult CandidateInfoFromResume)
    (relO : Position → LLMResult IsRelevantCandidate)
    (positions : List Position) (msg : Message) (row : CandidateRow)
    (h : (create_candidate_from_email extractCall relO positions msg).created = some row) :
    ∃ p, row = buildCandidateRow (get_candidate_info_from_resume extractCall) p := by
  simp only [create_candidate_from_email] at h
  cases hm : (matchPositions relO
      (candidate_info_str (get_candidate_info_from_resume extractCall)) positions).2 with
  | none => rw [hm] at h; simp at h
  | some p =>
    rw [hm] at h
    simp only [Option.map_some'] at h
    exact ⟨p, (Option.some_injective _ h).symm⟩

/-- Ledger membership survives a `sadd`. -/
lemma contains_sadd (ledger : List String) (k k2 : String)
    (h : ledger.contains k2 = true) : (sadd ledger k).contains k2 = true := by
  unfold sadd
  split
  · exact h
  · simp only [List.elem_eq_mem, decide_eq_true_eq] at h ⊢
    exact List.mem_append_left _ h

/-- `sadd` makes its key a member. -/
lemma contains_sadd_self (ledger : List String) (k : String) :
    (sadd ledger k).contains k = true := by
  unfold sadd
  split
  · assumption
  · simp

/-- A message whose key is already in the ledger is skipped: the state does
not change at all. -/
lemma processMessage_skip (classify : Message → LLMResult IsResumeSchema)
    (s : ScanState) (m : Message) (h : sismember s.ledger (message_id m) = true) :
    processMessage classify s m = s := by
  simp only [processMessage, h, if_true]

/-- Processing a message cannot remove ledger keys. -/
lemma processMessage_preserves (classify : Message → LLMResult IsResumeSchema)
    (s : ScanState) (m : Message) (k : String) (h : s.ledger.contains k = true) :
    (processMessage classify s m).ledger.contains k = true := by
  by_cases hmem : sismember s.ledger (message_id m) = true
  · rw [processMessage_skip classify s m hmem]
    exact h
  · simp only [processMessage, hmem, Bool.false_eq_true, if_false]
    split <;> exact contains_sadd _ _ _ h

/-- After processing a message its key is in the ledger, whatever the
classification outcome. -/
lemma processMessage_marks (classify : Message → LLMResult IsResumeSchema)
    (s : ScanState) (m : Message) :
    (processMessage classify s m).ledger.contains (message_id m) = true := by
  by_cases hmem : sismember s.ledger (message_id m) = true
  · rw [processMessage_skip classify s m hmem]
    exact hmem
  · simp only [processMessage, hmem, Bool.false_eq_true, if_false]
    split <;> exact contains_sadd_self _ _

/-- The message loop cannot remove ledger keys. -/
lemma scanUserMessages_preserves (classify : Message → LLMResult IsResumeSchema)
    (msgs : List Message) (s : ScanState) (k : String) (h : s.ledger.contains k = true) :
    (scanUserMessages classify s msgs).ledger.contains k = true := by
  induction msgs generalizing s with
  | nil => exact h
  | cons m rest ih => exact ih _ (processMessage_preserves classify s m k h)

/-- After the message loop every processed message's key is in the ledger. -/
lemma scanUserMessages_marks (classify : Message → LLMResult IsResumeSchema)
    (msgs : List Message) (s : ScanState) (m : Message) (hm : m ∈ msgs) :
    (scanUserMessages classify s msgs).ledger.contains (message_id m) = true := by
  induction msgs generalizing s with
  | nil => cases hm
  | cons m0 rest ih =>
    cases hm with
    | head =>
      exact scanUserMessages_preserves classify rest _ _ (processMessage_marks classify s m)
    | tail _ htail => exact ih _ htail

/-- If every message key is already in the ledger, the message loop is a
no-op. -/
lemma scanUserMessages_noop (classify : Message → LLMResult IsResumeSchema)
    (msgs : List Message) (s : ScanState)
    (h : ∀ m ∈ msgs, s.ledger.contains (message_id m) = true) :
    scanUserMessages classify s msgs = s := by
  induction msgs with
  | nil => rfl
  | cons m rest ih =>
    unfold scanUserMessages
    rw [processMessage_skip classify s m (h m (by simp))]
    exact ih (fun x hx => h x (by simp [hx]))

/-- The user loop cannot remove ledger keys. -/
lemma scanUsers_preserves (users : List UserEnv) (ledger : List String) (k : String)
    (h : ledger.contains k = true) : (scanUsers users ledger).1.contains k = true := by
  induction users generalizing ledger with
  | nil => exact h
  | cons u rest ih =>
    exact ih _ (scanUserMessages_preserves u.classify (userMessages u) _ k h)

/-- After the user loop, every fetched message's key is in the ledger. -/
lemma scanUsers_marks (users : List UserEnv) (ledger : List String) (u : UserEnv)
    (m : Message) (hu : u ∈ users) (hm : m ∈ userMessages u) :
    (scanUsers users ledger).1.contains (message_id m) = true := by
  induction users generalizing ledger with
  | nil => cases hu
  | cons u0 rest ih =>
    cases hu with
    | head =>
      exact scanUsers_preserves rest _ _
        (scanUserMessages_marks u.classify (userMessages u) _ m hm)
    | tail _ htail => exact ih _ htail

/-- If every fetched message's key is already in the ledger, the user loop
leaves the ledger unchanged and accepts nothing. -/
lemma scanUsers_noop (users : List UserEnv) (ledger : List String)
    (h : ∀ u ∈ users, ∀ m ∈ userMessages u, ledger.contains (message_id m) = true) :
    scanUsers users ledger = (ledger, users.map (fun u => (u, []))) := by
  induction users with
  | nil => rfl
  | cons u rest ih =>
    have h1 := scanUserMessages_noop u.classify (userMessages u)
      { ledger := ledger, accepted := [] } (h u (by simp))
    simp only [scanUsers, h1]
    rw [ih (fun x hx => h x (by simp [hx]))]
    simp

/-- Users with no accepted messages create no candidates. -/
lemma create_candidates_all_empty (users : List UserEnv) :
    create_candidates (users.map (fun u => (u, []))) = [] := by
  induction users with
  | nil => rfl
  | cons u rest ih =>
    unfold create_candidates
    simpa using ih

/-! ## Concrete fixtures used by witnesses and counterexamples -/

/-- A normalized message with no attachment. -/
def msgStub : Message :=
  { from_ := "a@x", date := "2024", subject := "cv", text := "hi",
    file_content := "", file_name := none, file_payload := none }

/-- 150 characters of extracted programming languages. -/
def pl150 : String := String.mk (List.replicate 150 'a')

/-- A full extraction result whose programming-languages string has 150
characters and whose `telegram` is JSON `null`. -/
def infoStub : CandidateInfoFromResume :=
  { full_name := "Ivan Ivanov", programming_languages := pl150,
    work_experience := "X 2 years", technologies := "Django", education := "KSTU",
    soft_skills := "teamwork", spoken_languages := "English B2",
    email := some "i@x.kg", phone := none, telegram := none }

/-- A position with no stated requirements. -/
def pos0 : Position := { id := 1, requirements := "" }

/-- Positions with identical non-empty requirements, in enumeration order. -/
def posP1 : Position := { id := 11, requirements := "Python, Django" }

def posP2 : Position := { id := 12, requirements := "Python, Django" }

/-- A second normalized message, distinct from `msgStub`. -/
def msgStub2 : Message :=
  { from_ := "c@z", date := "2026", subject := "s", text := "t",
    file_content := "", file_name := none, file_payload := none }

/-- A raw IMAP message with no attachments. -/
def rawStub : RawMessage :=
  { from_ := "b@y", date := "2025", subject := "s", text := "hello", html := "",
    attachments := [] }

/-- A user whose mailbox login fails and whose oracles all fail. -/
def env0 : UserEnv :=
  { outcome := MailboxOutcome.loginFailed,
    pdfO := fun _ => { pages := [], failed := false },
    docxO := fun _ => DocxOutcome.failed,
    classify := fun _ => LLMResult.failed,
    extractO := fun _ => LLMResult.failed,
    relO := fun _ _ => LLMResult.failed,
    positions := [] }

/-- If every fetched message's key is already in the ledger, the whole task is
a no-op on the pipeline state. -/
lemma check_email_task_noop (users : List UserEnv) (st : PipelineState)
    (h : ∀ u ∈ users, ∀ m ∈ userMessages u, st.ledger.contains (message_id m) = true) :
    check_email_task users st = st := by
  have hnoop := scanUsers_noop users st.ledger h
  simp only [check_email_task, hnoop, create_candidates_all_empty, List.append_nil]

/-! ## Claims -/

/-- C4: for every candidate summary and every `position_requirements` that is
empty or whitespace-only, `is_candidate_relevant_for_position` returns `true`
without invoking the model; when the requirements are not blank, a model-call
or schema-validation failure makes it return `false`. -/
theorem C4_open_requirements_and_fail_closed (call : LLMResult IsRelevantCandidate)
    (candidate_info position_requirements : String) :
    ((position_requirements = "" ∨ pyStrip position_requirements = "") →
      is_candidate_relevant_for_position call candidate_info position_requirements =
        { result := true, invoked := false }) ∧
    (¬(position_requirements = "" ∨ pyStrip position_requirements = "") →
      (call = LLMResult.emptyParsed ∨ call = LLMResult.failed) →
      is_candidate_relevant_for_position call candidate_info position_requirements =
        { result := false, invoked := true }) := by
  constructor
  · intro h
    unfold is_candidate_relevant_for_position
    rw [if_pos h]
  · intro h1 h2
    unfold is_candidate_relevant_for_position
    rw [if_neg h1]
    rcases h2 with h2 | h2 <;> subst h2 <;> rfl

/-- C4 witness: blank requirements short-circuit to `true` with no model call;
a failed call on real requirements yields `false`. -/
theorem C4_open_requirements_and_fail_closed_witness :
    is_candidate_relevant_for_position LLMResult.failed "profile" "   " =
      { result := true, invoked := false } ∧
    is_candidate_relevant_for_position LLMResult.failed "profile" "Python, Django" =
      { result := false, invoked := true } :=
  ⟨(C4_open_requirements_and_fail_closed LLMResult.failed "profile" "   ").1
      (Or.inr (by decide)),
   (C4_open_requirements_and_fail_closed LLMResult.failed "profile" "Python, Django").2
      (by decide) (Or.inr rfl)⟩

/-- C10: extension dispatch in `read_document` is case-insensitive — the
filename is lowercased before the extension check, so any two filenames with
the same lowercase form are processed identically. -/
theorem C10_extension_dispatch_case_insensitive (pdfO : Bytes → PdfOutcome)
    (docxO : Bytes → DocxOutcome) (payload : Bytes) (f g : String)
    (h : pyLower f = pyLower g) :
    read_document pdfO docxO f payload = read_document pdfO docxO g payload := by
  unfold read_document
  rw [h]

/-- C10 witness: `"CV.PDF"` is processed exactly like `"cv.pdf"`. -/
theorem C10_extension_dispatch_case_insensitive_witness :
    pyLower "CV.PDF" = pyLower "cv.pdf" ∧
    read_document (fun _ => { pages := [some "text"], failed := false })
        (fun _ => DocxOutcome.failed) "CV.PDF" [] =
      read_document (fun _ => { pages := [some "text"], failed := false })
        (fun _ => DocxOutcome.failed) "cv.pdf" [] :=
  ⟨by decide,
   C10_extension_dispatch_case_insensitive _ _ _ "CV.PDF" "cv.pdf" (by decide)⟩

/-- C8 counterexample: a `.pdf` whose extraction fails (the reader raises
before any page is read, outcome `{ pages := [], failed := true }`) does not
yield the empty string — `read_document` still returns the document-name
header line. -/
theorem C8_failed_extraction_counterexample :
    read_document (fun _ => { pages := [], failed := true })
        (fun _ => DocxOutcome.failed) "cv.pdf" [] =
      "Название документа: cv.pdf\n" ∧
    "Название документа: cv.pdf\n" ≠ "" := by
  exact ⟨by decide, by decide⟩

/-- C8 (amended): an unsupported extension yields the empty string; a
supported extension whose extraction fails yields exactly the document-name
header line (non-empty); the extractor is a total function, so it never
raises to its caller. -/
theorem C8_dispatch_and_failure (pdfO : Bytes → PdfOutcome)
    (docxO : Bytes → DocxOutcome) (filename : String) (payload : Bytes) :
    ((pyEndsWith (pyLower filename) ".pdf" = false ∧
      pyEndsWith (pyLower filename) ".docx" = false) →
      read_document pdfO docxO filename payload = "") ∧
    (pyEndsWith (pyLower filename) ".pdf" = true →
      pdfO payload = { pages := [], failed := true } →
      read_document pdfO docxO filename payload =
        "Название документа: " ++ pyLower filename ++ "\n") ∧
    (pyEndsWith (pyLower filename) ".pdf" = false →
      pyEndsWith (pyLower filename) ".docx" = true →
      docxO payload = DocxOutcome.failed →
      read_document pdfO docxO filename payload =
        "Название документа: " ++ pyLower filename ++ "\n") := by
  refine ⟨?_, ?_, ?_⟩
  · intro h
    unfold read_document
    simp [h.1, h.2]
  · intro h1 h2
    unfold read_document
    simp only [h1, if_true, h2]
    exact string_append_empty _
  · intro h1 h2 h3
    unfold read_document
    simp only [h1, h2, h3, Bool.false_eq_true, if_false, if_true]
    exact string_append_empty _

/-- C8 witness: a `.txt` file yields `""`; a failing `.pdf` and a failing
`.docx` yield their header lines. -/
theorem C8_dispatch_and_failure_witness :
    read_document (fun _ => { pages := [], failed := true })
        (fun _ => DocxOutcome.failed) "cv.txt" [] = "" ∧
    read_document (fun _ => { pages := [], failed := true })
        (fun _ => DocxOutcome.failed) "cv.pdf" [] =
      "Название документа: " ++ pyLower "cv.pdf" ++ "\n" ∧
    read_document (fun _ => { pages := [], failed := true })
        (fun _ => DocxOutcome.failed) "cv.docx" [] =
      "Название документа: " ++ pyLower "cv.docx" ++ "\n" :=
  ⟨(C8_dispatch_and_failure (fun _ => { pages := [], failed := true })
      (fun _ => DocxOutcome.failed) "cv.txt" []).1 ⟨by decide, by decide⟩,
   (C8_dispatch_and_failure (fun _ => { pages := [], failed := true })
      (fun _ => DocxOutcome.failed) "cv.pdf" []).2.1 (by decide) rfl,
   (C8_dispatch_and_failure (fun _ => { pages := [], failed := true })
      (fun _ => DocxOutcome.failed) "cv.docx" []).2.2 (by decide) (by decide) rfl⟩

/-- C7: the Mailbox Reader records text, filename and bytes of the first
attachment whose extracted text is non-empty and ignores the rest; when no
attachment yields text the attachment fields are left unset. -/
theorem C7_first_attachment_success_wins (rd : String → Bytes → String)
    (raw : RawMessage) :
    (∀ pre att post, raw.attachments = pre ++ att :: post →
      (∀ b ∈ pre, rd b.filename b.payload = "") →
      rd att.filename att.payload ≠ "" →
      (normalizeMessage rd raw).file_content = rd att.filename att.payload ∧
      (normalizeMessage rd raw).file_name = some att.filename ∧
      (normalizeMessage rd raw).file_payload = some att.payload) ∧
    ((∀ b ∈ raw.attachments, rd b.filename b.payload = "") →
      (normalizeMessage rd raw).file_content = "" ∧
      (normalizeMessage rd raw).file_name = none ∧
      (normalizeMessage rd raw).file_payload = none) := by
  constructor
  · intro pre att post hsplit h1 h2
    unfold normalizeMessage
    rw [hsplit, scanAttachments_first rd pre att post h1 h2]
    exact ⟨rfl, rfl, rfl⟩
  · intro h
    unfold normalizeMessage
    rw [scanAttachments_none rd raw.attachments h]
    exact ⟨rfl, rfl, rfl⟩

/-- C7 witness: with three attachments where only the second and third parse,
the second one's text, name and bytes are recorded; with all-unparseable
attachments the fields stay unset. -/
theorem C7_first_attachment_success_wins_witness :
    (normalizeMessage (fun fname _ => if fname = "bad.txt" then "" else "TEXT")
        { from_ := "a@x", date := "2024", subject := "cv", text := "hi", html := "",
          attachments := [{ filename := "bad.txt", payload := [0] },
                          { filename := "good.pdf", payload := [1] },
                          { filename := "later.pdf", payload := [2] }] }).file_content =
      "TEXT" ∧
    (normalizeMessage (fun fname _ => if fname = "bad.txt" then "" else "TEXT")
        { from_ := "a@x", date := "2024", subject := "cv", text := "hi", html := "",
          attachments := [{ filename := "bad.txt", payload := [0] },
                          { filename := "good.pdf", payload := [1] },
                          { filename := "later.pdf", payload := [2] }] }).file_name =
      some "good.pdf" ∧
    (normalizeMessage (fun _ _ => "")
        { from_ := "a@x", date := "2024", subject := "cv", text := "hi", html := "",
          attachments := [{ filename := "bad.txt", payload := [0] }] }).file_name =
      none := by
  have h1 := (C7_first_attachment_success_wins
      (fun fname _ => if fname = "bad.txt" then "" else "TEXT")
      { from_ := "a@x", date := "2024", subject := "cv", text := "hi", html := "",
        attachments := [{ filename := "bad.txt", payload := [0] },
                        { filename := "good.pdf", payload := [1] },
                        { filename := "later.pdf", payload := [2] }] }).1
      [{ filename := "bad.txt", payload := [0] }]
      { filename := "good.pdf", payload := [1] }
      [{ filename := "later.pdf", payload := [2] }]
      rfl (by decide) (by decide)
  have h2 := (C7_first_attachment_success_wins (fun _ _ => "")
      { from_ := "a@x", date := "2024", subject := "cv", text := "hi", html := "",
        attachments := [{ filename := "bad.txt", payload := [0] }] }).2
      (by decide)
  exact ⟨h1.1, h1.2.1, h2.2.1⟩

/-- C6: on the email ingestion path the stored `telegram` is the raw
extraction value — when the LLM returned JSON `null` for `telegram`, `None`
is stored (the claim says the empty string is, and the `telegram` column is
NOT NULL); the single-document path, by contrast, applies its `or ""`
fallback and stores the empty string. -/
theorem C6_email_path_stores_null_telegram :
    ((create_candidate_from_email (LLMResult.ok infoStub) (fun _ => LLMResult.failed)
      [pos0] msgStub).created).map (fun r => r.telegram) = some none ∧
    (create_candidate_from_single_document (LLMResult.ok infoStub) pos0).telegram =
      some "" := by
  exact ⟨by decide, by decide⟩

/-- C5: every row created by the email ingestion path stores the extracted
programming-languages string with newlines replaced by `", "` and truncated
to 100 characters, the spoken-languages string likewise truncated to 255
characters, and status `"new"`. -/
theorem C5_truncation_and_status (extractCall : LLMResult CandidateInfoFromResume)
    (relO : Position → LLMResult IsRelevantCandidate) (positions : List Position)
    (msg : Message) (row : CandidateRow)
    (h : (create_candidate_from_email extractCall relO positions msg).created = some row) :
    row.programming_language =
      pyTake (pyReplaceChar '\n' ", "
        (dictGetS (get_candidate_info_from_resume extractCall)
          (fun c => c.programming_languages) "")) 100 ∧
    row.languages =
      pyTake (pyReplaceChar '\n' ", "
        (dictGetS (get_candidate_info_from_resume extractCall)
          (fun c => c.spoken_languages) "")) 255 ∧
    row.status = "new" ∧
    row.programming_language.length ≤ 100 ∧
    row.languages.length ≤ 255 := by
  obtain ⟨p, rfl⟩ := created_eq_buildCandidateRow extractCall relO positions msg row h
  exact ⟨rfl, rfl, rfl, pyTake_length_le _ _, pyTake_length_le _ _⟩

/-- C5 witness: an extraction with a 150-character programming-languages
string produces a row whose stored value has at most 100 characters and whose
status is `"new"`. -/
theorem C5_truncation_and_status_witness :
    (create_candidate_from_email (LLMResult.ok infoStub) (fun _ => LLMResult.failed)
      [pos0] msgStub).created = some (buildCandidateRow (some infoStub) pos0) ∧
    (buildCandidateRow (some infoStub) pos0).programming_language.length ≤ 100 ∧
    (buildCandidateRow (some infoStub) pos0).status = "new" := by
  have h := C5_truncation_and_status (LLMResult.ok infoStub) (fun _ => LLMResult.failed)
    [pos0] msgStub (buildCandidateRow (some infoStub) pos0) (by decide)
  exact ⟨by decide, h.2.2.2.1, h.2.2.1⟩

/-- C2: the position loop scores the positions in order, creates exactly one
row for the first relevant position (ignoring everything after it), and
creates nothing when no position is relevant. -/
theorem C2_first_match_wins (extractCall : LLMResult CandidateInfoFromResume)
    (relO : Position → LLMResult IsRelevantCandidate) (msg : Message) :
    (∀ pre p post,
      (∀ q ∈ pre, (is_candidate_relevant_for_position (relO q)
        (candidate_info_str (get_candidate_info_from_resume extractCall))
        q.requirements).result = false) →
      (is_candidate_relevant_for_position (relO p)
        (candidate_info_str (get_candidate_info_from_resume extractCall))
        p.requirements).result = true →
      (create_candidate_from_email extractCall relO (pre ++ p :: post) msg).examined =
        pre ++ [p] ∧
      (create_candidate_from_email extractCall relO (pre ++ p :: post) msg).created =
        some (buildCandidateRow (get_candidate_info_from_resume extractCall) p)) ∧
    (∀ positions,
      (∀ q ∈ positions, (is_candidate_relevant_for_position (relO q)
        (candidate_info_str (get_candidate_info_from_resume extractCall))
        q.requirements).result = false) →
      (create_candidate_from_email extractCall relO positions msg).created = none) := by
  constructor
  · intro pre p post h1 h2
    simp only [create_candidate_from_email]
    rw [matchPositions_first relO _ pre p post h1 h2]
    exact ⟨rfl, rfl⟩
  · intro positions h
    simp only [create_candidate_from_email]
    rw [matchPositions_none relO _ positions h]
    rfl

/-- C2 witness: with two positions P1 and P2 (in that order) both scored
relevant, exactly one row is created, attached to P1, and P2 is never
examined. -/
theorem C2_first_match_wins_witness :
    (create_candidate_from_email (LLMResult.ok infoStub)
      (fun _ => LLMResult.ok { is_relevant := BinLit.s1 }) [posP1, posP2] msgStub).examined =
      [posP1] ∧
    (create_candidate_from_email (LLMResult.ok infoStub)
      (fun _ => LLMResult.ok { is_relevant := BinLit.s1 }) [posP1, posP2] msgStub).created =
      some (buildCandidateRow (some infoStub) posP1) := by
  have h := (C2_first_match_wins (LLMResult.ok infoStub)
      (fun _ => LLMResult.ok { is_relevant := BinLit.s1 }) msgStub).1 [] posP1 [posP2]
      (by decide) (by decide)
  exact ⟨h.1, h.2⟩

/-- C3 counterexample: with an extraction that yields the empty record (LLM
failure) and one position with empty requirements, the pipeline still creates
a Candidate — the placeholder row with `full_name = "Без имени"` — although
the claim says no Candidate is created. -/
theorem C3_empty_extraction_counterexample :
    (create_candidate_from_email LLMResult.failed (fun _ => LLMResult.failed)
      [pos0] msgStub).created = some (buildCandidateRow none pos0) ∧
    (create_candidate_from_email LLMResult.failed (fun _ => LLMResult.failed)
      [pos0] msgStub).created ≠ none ∧
    (buildCandidateRow none pos0).full_name = "Без имени" := by
  exact ⟨by decide, by decide, by decide⟩

/-- C3 (amended): when `extract_candidate` yields an empty record, the ledger
key remains marked seen (ledger keys are never removed and every processed
message is marked), but the message is not abandoned: position matching still
runs on the empty record, and no Candidate is created only when no position
scores relevant (a position with empty requirements, for instance, scores
relevant and receives a placeholder Candidate). -/
theorem C3_empty_extraction_behavior (extractCall : LLMResult CandidateInfoFromResume)
    (relO : Position → LLMResult IsRelevantCandidate) (positions : List Position)
    (msg : Message) (users : List UserEnv) (st : PipelineState)
    (hempty : get_candidate_info_from_resume extractCall = none) :
    ((∀ q ∈ positions, (is_candidate_relevant_for_position (relO q)
        (candidate_info_str none) q.requirements).result = false) →
      (create_candidate_from_email extractCall relO positions msg).created = none) ∧
    (∀ k, st.ledger.contains k = true →
      (check_email_task users st).ledger.contains k = true) ∧
    (∀ u ∈ users, ∀ m ∈ userMessages u,
      (check_email_task users st).ledger.contains (message_id m) = true) := by
  refine ⟨?_, ?_, ?_⟩
  · intro h
    simp only [create_candidate_from_email, hempty]
    rw [matchPositions_none relO _ positions h]
    rfl
  · intro k hk
    exact scanUsers_preserves users st.ledger k hk
  · intro u hu m hm
    exact scanUsers_marks users st.ledger u m hu hm

/-- C3 witness: a failed extraction against one position with non-empty
requirements (relevance call fails, scoring false) creates nothing, and a
pre-existing ledger key survives a task run. -/
theorem C3_empty_extraction_behavior_witness :
    (create_candidate_from_email LLMResult.failed (fun _ => LLMResult.failed)
      [posP1] msgStub).created = none ∧
    (check_email_task [env0] { ledger := ["k"], candidates := [] }).ledger.contains "k" =
      true := by
  have h := C3_empty_extraction_behavior LLMResult.failed (fun _ => LLMResult.failed)
    [posP1] msgStub [env0] { ledger := ["k"], candidates := [] } rfl
  exact ⟨h.1 (by decide), h.2.1 "k" (by decide)⟩

/-- C9 counterexample: a fetch that yields one message and then hits a
protocol failure (the `true` flag) does not return an empty result set — the
message processed before the failure is returned. -/
theorem C9_partial_fetch_counterexample :
    get_last_messages (MailboxOutcome.fetched [rawStub] true) (fun _ _ => "") ≠ [] := by
  decide

/-- C9 (amended): a connection failure at login yields an empty result set; a
protocol failure mid-fetch yields exactly the messages processed before the
failure (logged, not raised — the function is total); and a user whose
mailbox login fails contributes nothing, so the task state is as if that user
were absent (one user's mail failure does not abort the others). -/
theorem C9_mail_failure_semantics (rd : String → Bytes → String)
    (raws : List RawMessage) (err : Bool) (uf : UserEnv) (users : List UserEnv)
    (st : PipelineState) :
    get_last_messages MailboxOutcome.loginFailed rd = [] ∧
    get_last_messages (MailboxOutcome.fetched raws err) rd =
      raws.map (normalizeMessage rd) ∧
    (uf.outcome = MailboxOutcome.loginFailed →
      check_email_task (uf :: users) st = check_email_task users st) := by
  refine ⟨rfl, rfl, ?_⟩
  intro h
  have hmsgs : userMessages uf = [] := by
    unfold userMessages
    rw [h]
    rfl
  simp only [check_email_task, scanUsers, hmsgs, scanUserMessages, create_candidates,
    List.foldl_nil, List.nil_append]

/-- C9 witness: the failing user contributes nothing to the run. -/
theorem C9_mail_failure_semantics_witness :
    get_last_messages MailboxOutcome.loginFailed (fun _ _ => "") = [] ∧
    check_email_task [env0] { ledger := [], candidates := [] } =
      check_email_task [] { ledger := [], candidates := [] } := by
  have h := C9_mail_failure_semantics (fun _ _ => "") [] false env0 []
    { ledger := [], candidates := [] }
  exact ⟨h.1, h.2.2 rfl⟩

/-- C1: a message whose ledger key is already a member is skipped entirely
(the scan state is unchanged); on a miss the key is in the ledger afterwards
whatever the classifier answers (it is added before classification, so even a
failing classification leaves the key marked); consequently running the whole
task a second time over the same message streams — with any classifier,
extraction and relevance oracles — changes nothing: no second Candidate is
ever created for an already-seen (sender, timestamp) key. -/
theorem C1_ledger_gate_idempotent (users1 users2 : List UserEnv) (st : PipelineState) :
    (∀ (classify : Message → LLMResult IsResumeSchema) (s : ScanState) (m : Message),
      sismember s.ledger (message_id m) = true → processMessage classify s m = s) ∧
    (∀ (classify : Message → LLMResult IsResumeSchema) (s : ScanState) (m : Message),
      (processMessage classify s m).ledger.contains (message_id m) = true) ∧
    (users1.map userMessages = users2.map userMessages →
      check_email_task users2 (check_email_task users1 st) = check_email_task users1 st) := by
  refine ⟨fun c s m h => processMessage_skip c s m h,
    fun c s m => processMessage_marks c s m, ?_⟩
  intro hmaps
  have hcover : ∀ u ∈ users2, ∀ m ∈ userMessages u,
      (check_email_task users1 st).ledger.contains (message_id m) = true := by
    intro u hu m hm
    have hmem : userMessages u ∈ users1.map userMessages := by
      rw [hmaps]
      exact List.mem_map_of_mem _ hu
    obtain ⟨u1, hu1, heq⟩ := List.mem_map.1 hmem
    exact scanUsers_marks users1 st.ledger u1 m hu1 (heq ▸ hm)
  exact check_email_task_noop users2 (check_email_task users1 st) hcover

/-- C1 witness: a seen key is skipped, a fresh key is marked, and running the
task twice over the same user equals running it once. -/
theorem C1_ledger_gate_idempotent_witness :
    processMessage (fun _ => LLMResult.failed)
      { ledger := ["c@z_2026"], accepted := [] } msgStub2 =
      { ledger := ["c@z_2026"], accepted := [] } ∧
    (processMessage (fun _ => LLMResult.failed)
      { ledger := [], accepted := [] } msgStub2).ledger.contains (message_id msgStub2) =
      true ∧
    check_email_task [env0] (check_email_task [env0] { ledger := [], candidates := [] }) =
      check_email_task [env0] { ledger := [], candidates := [] } := by
  have h := C1_ledger_gate_idempotent [env0] [env0] { ledger := [], candidates := [] }
  exact ⟨h.1 _ _ _ (by decide), h.2.1 _ _ _, h.2.2 rfl⟩

end RecruitFlow
